import Mathlib

/-!
Shallow embedding of `allensdk/api/cache.py` (class `Cache`), covering the
query-strategy dispatch engine `Cache.cacher`, the path helper
`Cache.get_cache_path`, and manifest loading (`Cache.load_manifest`,
`Cache.build_manifest`).

Modelling choices:
* Data handled by the engine is a type parameter `Data` (the Python code is
  untyped; `fn`, `pre`, `post`, `reader`, `writer` all traffic in arbitrary
  objects).
* The filesystem is an explicit state: an association list of file paths to
  stored contents plus a list of directories that exist.  `reader`/`writer`
  hooks are modelled by their pure content transformations: `writer` encodes a
  data value into the content stored at the path, `reader` decodes the content
  found at the path (a reader applied to a missing file is a raised I/O error).
* Every externally observable step (fetch invocation, directory creation,
  file write, file read) is recorded in an event trace, so that claims about
  which steps run, and in which order, are statements about the trace.
* Python's `return data` with `data` unbound raises `UnboundLocalError`; a
  run therefore produces `Except CacheErr (Option Data)`:
  `Except.ok (some d)` models `return data`, `Except.ok none` models the bare
  `return` (Python `None`), and `Except.error` models a raised exception.
-/

namespace AllenSDK

/-- One observable effect of a cache-engine run, in order of occurrence. -/
inductive Ev (Data : Type) where
  | fetch : Ev Data
  | mkdir (dir : String) : Ev Data
  | write (path : String) (content : Data) : Ev Data
  | read (path : String) : Ev Data
  deriving DecidableEq, Repr

/-- Filesystem state: files (path to stored content) and existing directories. -/
structure CacheState (Data : Type) where
  files : List (String × Data)
  dirs : List String
  deriving DecidableEq, Repr

/-- Look up the content stored at a path (first match wins). -/
def lookupFile {Data : Type} : List (String × Data) → String → Option Data
  | [], _ => none
  | (q, c) :: rest, p => if q = p then some c else lookupFile rest p

/-- `os.path.exists(path)` for the modelled filesystem. -/
def fileExists {Data : Type} (s : CacheState Data) (p : String) : Bool :=
  (lookupFile s.files p).isSome

/-- Store content at a path (overwrites any previous content). -/
def writeFile {Data : Type} (s : CacheState Data) (p : String) (c : Data) :
    CacheState Data :=
  { s with files := (p, c) :: s.files }

/-- The characters strictly before the last slash of a character list, `none`
when there is no slash. -/
def beforeLastSlash : List Char → Option (List Char)
  | [] => none
  | c :: cs =>
    match beforeLastSlash cs with
    | some t => some (c :: t)
    | none => if c = '/' then some [] else none

/-- `os.path.dirname`: the part of a (relative) path before the final slash,
`""` when the path contains no slash. -/
def dirname (p : String) : String :=
  match beforeLastSlash p.data with
  | some t => String.mk t
  | none => ""

/-- Modelled from the spec: `Manifest.safe_make_parent_dirs(path)` (defined in
`allensdk.config.manifest`, outside this file's scope) ensures the parent
directories of `path` exist; here it records the parent directory as existing. -/
def safe_make_parent_dirs {Data : Type} (s : CacheState Data) (p : String) :
    CacheState Data :=
  { s with dirs := dirname p :: s.dirs }

/-- The optional hook bundle popped from `kwargs` by `Cache.cacher`, with the
source defaults: `pre` defaults to the identity `lambda d: d`; `post` defaults
to the identity `lambda d: d` (a truthy function value — `none` models a caller
explicitly passing a falsy `post`, such as `post=None`); `reader` and `writer`
default to `None`.  `reader`/`writer` are represented by their content decode /
encode functions (see the file header). -/
structure Hooks (Data : Type) where
  pre : Data → Data := id
  post : Option (Data → Data) := some id
  reader : Option (Data → Data) := none
  writer : Option (Data → Data) := none

/-- Faults a `Cache.cacher` run can raise: `unboundLocal` models Python's
`UnboundLocalError` when `data` is referenced before assignment;
`readMissing` models the I/O error of a reader applied to an absent file. -/
inductive CacheErr where
  | unboundLocal : CacheErr
  | readMissing (path : String) : CacheErr
  deriving DecidableEq, Repr

deriving instance DecidableEq for Except

/-- The outcome of one `Cache.cacher` run: returned value (or fault), final
filesystem state, and the ordered trace of observable steps. -/
structure CacherOut (Data : Type) where
  result : Except CacheErr (Option Data)
  state : CacheState Data
  trace : List (Ev Data)
  deriving DecidableEq, Repr

/-- Lines 200–207 of `cache.py`: `'lazy'` is resolved (using a filesystem
existence check on `path`) to `'file'` or `'create'`, then a `None` strategy
becomes `'pass_through'`. -/
def normalizeStrategy (query_strategy : Option String) (pathExists : Bool) :
    String :=
  let qs := if query_strategy = some "lazy" then
      (if pathExists then some "file" else some "create")
    else query_strategy
  match qs with
  | none => "pass_through"
  | some strat => strat

/-- Lines 209–235 of `cache.py`: the branch on the already-normalized strategy,
then the `reader` step, then the `post` step and the bare-`return` fallback.
`fn` is the fetch function's return value; each invocation of it appends
`Ev.fetch` to the trace. -/
def cacherDispatch {Data : Type} (fn : Data) (path : String) (strat : String)
    (h : Hooks Data) (s : CacheState Data) : CacherOut Data :=
  let step2 : Option Data × CacheState Data × List (Ev Data) :=
    if strat = "pass_through" then
      (some fn, s, [Ev.fetch])
    else if strat ≠ "file" then
      match h.writer with
      | some w =>
        let s1 := safe_make_parent_dirs s path
        let d := h.pre fn
        (some d, writeFile s1 path (w d),
          [Ev.mkdir (dirname path), Ev.fetch, Ev.write path (w d)])
      | none => (none, s, [Ev.fetch])
    else (none, s, [])
  let d0 := step2.1
  let s1 := step2.2.1
  let t1 := step2.2.2
  match h.reader with
  | some r =>
    let t2 := t1 ++ [Ev.read path]
    match lookupFile s1.files path with
    | some c =>
      match h.post with
      | some p => ⟨Except.ok (some (p (r c))), s1, t2⟩
      | none => ⟨Except.ok (some (r c)), s1, t2⟩
    | none => ⟨Except.error (CacheErr.readMissing path), s1, t2⟩
  | none =>
    match h.post with
    | some p =>
      match d0 with
      | some d => ⟨Except.ok (some (p d)), s1, t1⟩
      | none => ⟨Except.error CacheErr.unboundLocal, s1, t1⟩
    | none =>
      match d0 with
      | some d => ⟨Except.ok (some d), s1, t1⟩
      | none => ⟨Except.ok none, s1, t1⟩

/-- `Cache.cacher` (lines 160–235 of `cache.py`): normalize the strategy once,
using the filesystem existence of `path` at call time, then dispatch.
(`path` defaults to `'data.csv'` in the source when absent from `kwargs`;
callers of the model pass it explicitly.) -/
def cacher {Data : Type} (fn : Data) (path : String)
    (query_strategy : Option String) (h : Hooks Data) (s : CacheState Data) :
    CacherOut Data :=
  cacherDispatch fn path (normalizeStrategy query_strategy (fileExists s path)) h s

/-- Python truthiness of an optional string argument: `None` and `""` are falsy. -/
def truthyStr : Option String → Bool
  | none => false
  | some s => !(s = "")

/-- `Cache.get_cache_path` (lines 32–52 of `cache.py`).  `manifest` carries the
facade's manifest as its `get_path` lookup function (absent when
`self.manifest` is `None`). -/
def get_cache_path (cache : Bool)
    (manifest : Option (String → List String → Option String))
    (file_name : Option String) (manifest_key : String) (args : List String) :
    Option String :=
  if cache then
    if truthyStr file_name then file_name
    else
      match manifest with
      | some get_path => get_path manifest_key args
      | none => none
  else none

/-- The base class `Cache.build_manifest` (lines 81–90 of `cache.py`): it
unconditionally raises. -/
def build_manifest (file_name : String) : Except String Unit :=
  Except.error "This function must be defined in the appropriate subclass"

/-- Observable steps of a `Cache.load_manifest` run. -/
inductive MEv where
  | mkdir (dir : String) : MEv
  | build (file : String) : MEv
  | readFile (file : String) : MEv
  deriving DecidableEq, Repr

/-- Outcome of `Cache.load_manifest`: `Except.ok (some ())` means
`self.manifest` was set to a loaded `Manifest`, `Except.ok none` means it was
set to `None`, `Except.error` a raised exception; plus the step trace. -/
structure LoadOut where
  result : Except String (Option Unit)
  trace : List MEv
  deriving DecidableEq, Repr

/-- `Cache.load_manifest` (lines 54–79 of `cache.py`).  `builder` is the
facade's `build_manifest` method (the base class supplies `build_manifest`
above; subclasses override it), and `fsE` is `os.path.exists`.  The external
collaborators `Manifest.safe_mkdir`, `ju.read` and the `Manifest` constructor
are modelled from the spec as the `MEv.mkdir` and `MEv.readFile` steps. -/
def load_manifest (builder : String → Except String Unit)
    (fsE : String → Bool) (file_name : Option String) : LoadOut :=
  match file_name with
  | some f =>
    if fsE f then ⟨Except.ok (some ()), [MEv.readFile f]⟩
    else
      let t0 := if dirname f = "" then [] else [MEv.mkdir (dirname f)]
      match builder f with
      | Except.ok _ => ⟨Except.ok (some ()), t0 ++ [MEv.build f, MEv.readFile f]⟩
      | Except.error e => ⟨Except.error e, t0 ++ [MEv.build f]⟩
  | none => ⟨Except.ok none, []⟩

/-- C1: strategy normalization — `lazy` resolves to `file` exactly when the
path exists at call time and to `create` otherwise, `None` resolves to
`pass_through`, and the normalization happens once, before any fetch, write or
read step executes (the whole run factors through the normalized strategy
computed from the call-time state). -/
theorem c1_strategy_normalization {Data : Type} (fn : Data) (path : String)
    (h : Hooks Data) (s : CacheState Data) :
    cacher fn path (some "lazy") h s
      = cacher fn path (some (if fileExists s path then "file" else "create")) h s
    ∧ cacher fn path none h s = cacher fn path (some "pass_through") h s
    ∧ ∀ qs : Option String,
        cacher fn path qs h s
          = cacherDispatch fn path
              (normalizeStrategy qs (fileExists s path)) h s := by
  refine ⟨?_, rfl, fun qs => rfl⟩
  unfold cacher
  by_cases hex : fileExists s path <;>
    simp [normalizeStrategy, hex]

/-- C2 counterexample: with a reader hook configured, `pass_through` does read
from disk and the returned value is not `post(fetch(args))` — at fetch value 5,
reader content-decode (+1) and file content 10, the result is 11, not 5, and a
read event occurs. -/
theorem c2_counterexample :
    (cacher (5 : Nat) "data.csv" none
        { reader := some (fun c => c + 1) } ⟨[("data.csv", 10)], []⟩).result
      = Except.ok (some 11)
    ∧ ¬ (cacher (5 : Nat) "data.csv" none
        { reader := some (fun c => c + 1) } ⟨[("data.csv", 10)], []⟩).result
      = Except.ok (some 5)
    ∧ Ev.read "data.csv" ∈ (cacher (5 : Nat) "data.csv" none
        { reader := some (fun c => c + 1) } ⟨[("data.csv", 10)], []⟩).trace := by
  refine ⟨rfl, by decide, by decide⟩

/-- C2 (amended): under normalized strategy `pass_through`, no writer is
invoked, no directory is created and the filesystem state is unchanged for
every hook bundle; and for every hook bundle with no reader configured, no
read-from-disk occurs and the returned value is `post(fetch(args))`
(or `fetch(args)` when `post` is absent). -/
theorem c2_pass_through_purity {Data : Type} (fn : Data) (path : String)
    (qs : Option String) (h : Hooks Data) (s : CacheState Data)
    (hpt : normalizeStrategy qs (fileExists s path) = "pass_through") :
    (cacher fn path qs h s).state = s
    ∧ (∀ p c, Ev.write p c ∉ (cacher fn path qs h s).trace)
    ∧ (∀ d, Ev.mkdir d ∉ (cacher fn path qs h s).trace)
    ∧ (h.reader = none →
        (cacher fn path qs h s).trace = [Ev.fetch]
        ∧ (cacher fn path qs h s).result
            = Except.ok (some (match h.post with
                | some p => p fn
                | none => fn))) := by
  unfold cacher
  rw [hpt]
  unfold cacherDispatch
  cases hro : h.reader with
  | some r =>
    cases hc : lookupFile s.files path with
    | some c =>
      cases hpo : h.post <;> simp [hro, hc, hpo]
    | none => simp [hro, hc]
  | none =>
    cases hpo : h.post <;> simp [hro, hpo]

/-- C2 witness: a concrete pass-through run with no hooks returns the fetch
value unchanged. -/
theorem c2_witness :
    (cacher (5 : Nat) "p" none {} ⟨[], []⟩).result = Except.ok (some 5) :=
  (c2_pass_through_purity 5 "p" none {} ⟨[], []⟩ rfl).2.2.2 rfl |>.2

/-- C3: under normalized strategy `file` the fetch function is never invoked
(no fetch event, and the whole outcome is independent of the fetch function),
and the returned value derives solely from `reader(path)` and the `post`
hook. -/
theorem c3_file_no_fetch {Data : Type} (fn fn2 : Data) (path : String)
    (qs : Option String) (h : Hooks Data) (s : CacheState Data)
    (hf : normalizeStrategy qs (fileExists s path) = "file") :
    Ev.fetch ∉ (cacher fn path qs h s).trace
    ∧ cacher fn path qs h s = cacher fn2 path qs h s
    ∧ (∀ r c, h.reader = some r → lookupFile s.files path = some c →
        (cacher fn path qs h s).result
          = Except.ok (some (match h.post with
              | some p => p (r c)
              | none => r c))) := by
  unfold cacher
  rw [hf]
  unfold cacherDispatch
  cases hro : h.reader with
  | some r =>
    cases hc : lookupFile s.files path with
    | some c =>
      cases hpo : h.post <;> simp_all
    | none => simp_all
  | none =>
    cases hpo : h.post <;> simp_all

/-- C3 witness: with the file present and an identity reader, a `file` run
returns the stored content. -/
theorem c3_witness :
    (cacher (0 : Nat) "data.csv" (some "file")
        { reader := some id } ⟨[("data.csv", 42)], []⟩).result
      = Except.ok (some 42) :=
  (c3_file_no_fetch 0 1 "data.csv" (some "file")
      { reader := some id } ⟨[("data.csv", 42)], []⟩ rfl).2.2 id 42 rfl rfl

/-- C4 counterexample: strategy `file`, no reader configured, and no `post`
supplied by the caller (so the source default, the truthy identity lambda, is
in force): the run raises an unbound-local fault instead of returning an
absent result. -/
theorem c4_counterexample :
    (cacher (0 : Nat) "data.csv" (some "file") {} ⟨[], []⟩).result
      = Except.error CacheErr.unboundLocal
    ∧ ¬ (cacher (0 : Nat) "data.csv" (some "file") {} ⟨[], []⟩).result
      = Except.ok none := by
  refine ⟨rfl, by decide⟩

/-- C4 (amended): when no prior step produced a data value (normalized
strategy `file`, or any non-`pass_through` strategy with no writer), no reader
is configured, and the caller explicitly supplied a falsy `post` hook
(`post=None`), the call returns an absent result rather than raising; with the
default (unsupplied) `post` the same run raises an unbound-local fault. -/
theorem c4_no_data_result {Data : Type} (fn : Data) (path : String)
    (qs : Option String) (h : Hooks Data) (s : CacheState Data)
    (hnp : normalizeStrategy qs (fileExists s path) ≠ "pass_through")
    (hcase : normalizeStrategy qs (fileExists s path) = "file" ∨ h.writer = none)
    (hr : h.reader = none) :
    (h.post = none → (cacher fn path qs h s).result = Except.ok none)
    ∧ (∀ p, h.post = some p →
        (cacher fn path qs h s).result = Except.error CacheErr.unboundLocal) := by
  unfold cacher cacherDispatch
  rcases hcase with hfile | hw
  · rw [hfile]
    cases hpo : h.post <;> simp_all
  · by_cases hfile : normalizeStrategy qs (fileExists s path) = "file"
    · rw [hfile]
      cases hpo : h.post <;> simp_all
    · cases hpo : h.post <;> simp_all

/-- C4 witness: a `file` run with no reader and an explicit `post=None`
returns the absent result. -/
theorem c4_witness :
    (cacher (0 : Nat) "data.csv" (some "file") { post := none } ⟨[], []⟩).result
      = Except.ok none :=
  (c4_no_data_result 0 "data.csv" (some "file") { post := none } ⟨[], []⟩
      (by decide) (Or.inl rfl) rfl).1 rfl

/-- C5: parent-directory creation happens only on the create branch and only
when a writer hook is present — under `pass_through`, `file`, or with no
writer, no directory is ever created and the set of directories is unchanged —
and when it does happen, the trace shows the directory creation strictly
before the writer invocation. -/
theorem c5_dir_creation {Data : Type} (fn : Data) (path : String)
    (qs : Option String) (h : Hooks Data) (s : CacheState Data) :
    ((normalizeStrategy qs (fileExists s path) = "pass_through"
        ∨ normalizeStrategy qs (fileExists s path) = "file"
        ∨ h.writer = none) →
      (∀ d, Ev.mkdir d ∉ (cacher fn path qs h s).trace)
      ∧ (cacher fn path qs h s).state.dirs = s.dirs)
    ∧ (∀ w, h.writer = some w →
        normalizeStrategy qs (fileExists s path) ≠ "pass_through" →
        normalizeStrategy qs (fileExists s path) ≠ "file" →
        (cacher fn path qs h s).trace
          = [Ev.mkdir (dirname path), Ev.fetch, Ev.write path (w (h.pre fn))]
            ++ (match h.reader with
                | some _ => [Ev.read path]
                | none => [])) := by
  unfold cacher cacherDispatch
  constructor
  · intro hcase
    rcases hcase with hpt | hfile | hw
    · rw [hpt]
      cases hro : h.reader with
      | some r =>
        cases hc : lookupFile s.files path with
        | some c => cases hpo : h.post <;> simp_all
        | none => simp_all
      | none => cases hpo : h.post <;> simp_all
    · rw [hfile]
      cases hro : h.reader with
      | some r =>
        cases hc : lookupFile s.files path with
        | some c => cases hpo : h.post <;> simp_all
        | none => simp_all
      | none => cases hpo : h.post <;> simp_all
    · by_cases hpt : normalizeStrategy qs (fileExists s path) = "pass_through"
      · rw [hpt]
        cases hro : h.reader with
        | some r =>
          cases hc : lookupFile s.files path with
          | some c => cases hpo : h.post <;> simp_all
          | none => simp_all
        | none => cases hpo : h.post <;> simp_all
      · by_cases hfile : normalizeStrategy qs (fileExists s path) = "file" <;>
        · cases hro : h.reader with
          | some r =>
            cases hc : lookupFile s.files path with
            | some c => cases hpo : h.post <;> simp_all
            | none => simp_all
          | none => cases hpo : h.post <;> simp_all
  · intro w hw hpt hfile
    cases hro : h.reader with
    | some r =>
      cases hc : lookupFile
          (writeFile (safe_make_parent_dirs s path) path (w (h.pre fn))).files
          path with
      | some c => cases hpo : h.post <;> simp_all
      | none => simp_all
    | none => cases hpo : h.post <;> simp_all

/-- C5 witness: with no writer no directory is created; with a writer on the
create branch the trace is exactly mkdir, then fetch, then write. -/
theorem c5_witness :
    (∀ d, Ev.mkdir d ∉ (cacher (1 : Nat) "a/b.csv" none {} ⟨[], []⟩).trace)
    ∧ (cacher (1 : Nat) "a/b.csv" (some "create")
        { writer := some id } ⟨[], []⟩).trace
      = [Ev.mkdir "a", Ev.fetch, Ev.write "a/b.csv" 1] :=
  ⟨((c5_dir_creation 1 "a/b.csv" none {} ⟨[], []⟩).1 (Or.inl rfl)).1, by
    have h := (c5_dir_creation 1 "a/b.csv" (some "create")
        { writer := some id } ⟨[], []⟩).2 id rfl (by decide) (by decide)
    rw [h]
    decide⟩

/-- C6: with a writer and a reader configured such that reading back what the
writer wrote reproduces the written value, a `create` run followed by a `file`
run on the same path (against the state the `create` run left behind) yields
equal results. -/
theorem c6_create_then_file {Data : Type} (fn : Data) (path : String)
    (h : Hooks Data) (s : CacheState Data) (w r : Data → Data)
    (hw : h.writer = some w) (hr : h.reader = some r)
    (hrt : ∀ x, r (w x) = x) :
    (cacher fn path (some "create") h s).result
      = (cacher fn path (some "file") h
          (cacher fn path (some "create") h s).state).result := by
  unfold cacher cacherDispatch normalizeStrategy
  cases hpo : h.post <;> simp_all [lookupFile, writeFile, fileExists]

/-- C6 witness: identity writer/reader round-trip at fetch value 7. -/
theorem c6_witness :
    (cacher (7 : Nat) "p" (some "create")
        { writer := some id, reader := some id } ⟨[], []⟩).result
      = (cacher (7 : Nat) "p" (some "file")
          { writer := some id, reader := some id }
          (cacher (7 : Nat) "p" (some "create")
            { writer := some id, reader := some id } ⟨[], []⟩).state).result :=
  c6_create_then_file 7 "p" { writer := some id, reader := some id } ⟨[], []⟩
    id id rfl rfl (fun x => rfl)

/-- C7: `get_cache_path` returns an absent result whenever the facade's cache
flag is disabled, regardless of the key and manifest; and when caching is
enabled and the caller supplies an explicit (truthy) file name, that file name
is returned, taking precedence over any manifest lookup. -/
theorem c7_get_cache_path (cache : Bool)
    (manifest : Option (String → List String → Option String))
    (file_name : Option String) (key : String) (args : List String) :
    (cache = false → get_cache_path cache manifest file_name key args = none)
    ∧ (∀ fname, cache = true → file_name = some fname → fname ≠ "" →
        get_cache_path cache manifest file_name key args = some fname) := by
  constructor
  · intro hc
    simp [get_cache_path, hc]
  · intro fname hc hf hne
    simp [get_cache_path, hc, hf, truthyStr, hne]

/-- C7 witness: cache disabled yields absent even with a manifest hit; cache
enabled with an explicit file name returns that file name over the manifest. -/
theorem c7_witness :
    get_cache_path false (some (fun _ _ => some "m.csv")) (some "f.csv") "k" []
      = none
    ∧ get_cache_path true (some (fun _ _ => some "m.csv")) (some "f.csv") "k" []
      = some "f.csv" :=
  ⟨(c7_get_cache_path false (some (fun _ _ => some "m.csv"))
      (some "f.csv") "k" []).1 rfl,
    (c7_get_cache_path true (some (fun _ _ => some "m.csv"))
      (some "f.csv") "k" []).2 "f.csv" rfl rfl (by decide)⟩

/-- C8: when the manifest file does not exist (and sits under a directory),
`load_manifest` creates the parent directory, invokes the default-manifest
builder, and then loads the file, in that order; and the base-class
`build_manifest` is an unconditional failure for every file name. -/
theorem c8_load_manifest (builder : String → Except String Unit)
    (fsE : String → Bool) (f : String) (hne : fsE f = false)
    (hd : dirname f ≠ "") (hok : builder f = Except.ok ()) :
    load_manifest builder fsE (some f)
      = ⟨Except.ok (some ()),
          [MEv.mkdir (dirname f), MEv.build f, MEv.readFile f]⟩
    ∧ ∀ g, build_manifest g
      = Except.error "This function must be defined in the appropriate subclass" := by
  constructor
  · simp [load_manifest, hne, hd, hok]
  · intro g
    rfl

/-- C8 witness: a concrete absent manifest file under directory `dir` gets its
directory created, is built, then loaded; and the base builder fails on a
concrete name. -/
theorem c8_witness :
    load_manifest (fun _ => Except.ok ()) (fun _ => false)
        (some "dir/manifest.json")
      = ⟨Except.ok (some ()),
          [MEv.mkdir "dir", MEv.build "dir/manifest.json",
            MEv.readFile "dir/manifest.json"]⟩
    ∧ build_manifest "x"
      = Except.error "This function must be defined in the appropriate subclass" := by
  have h := c8_load_manifest (fun _ => Except.ok ()) (fun _ => false)
    "dir/manifest.json" rfl (by decide) rfl
  refine ⟨?_, h.2 "x"⟩
  rw [h.1]
  decide

/-- C9: under normalized strategy `pass_through` with a reader hook
configured, the fetch function is still invoked (a fetch event occurs) but its
return value is discarded (the outcome is independent of the fetch value), and
when the file is present the returned value is `post(reader(path))`. -/
theorem c9_pass_through_reader {Data : Type} (fn fn2 : Data) (path : String)
    (qs : Option String) (h : Hooks Data) (s : CacheState Data)
    (r p : Data → Data) (c : Data)
    (hpt : normalizeStrategy qs (fileExists s path) = "pass_through")
    (hr : h.reader = some r) (hp : h.post = some p)
    (hc : lookupFile s.files path = some c) :
    Ev.fetch ∈ (cacher fn path qs h s).trace
    ∧ (cacher fn path qs h s).result = Except.ok (some (p (r c)))
    ∧ (cacher fn path qs h s).result = (cacher fn2 path qs h s).result := by
  unfold cacher
  rw [hpt]
  unfold cacherDispatch
  simp [hr, hp, hc]

/-- C9 witness: pass-through with a reader and identity post at file content
10 and fetch value 5 returns the read content 10, with a fetch event in the
trace. -/
theorem c9_witness :
    Ev.fetch ∈ (cacher (5 : Nat) "data.csv" none
        { reader := some id } ⟨[("data.csv", 10)], []⟩).trace
    ∧ (cacher (5 : Nat) "data.csv" none
        { reader := some id } ⟨[("data.csv", 10)], []⟩).result
      = Except.ok (some 10) :=
  ⟨(c9_pass_through_reader 5 6 "data.csv" none
      { reader := some id } ⟨[("data.csv", 10)], []⟩ id id 10
      rfl rfl rfl rfl).1,
    (c9_pass_through_reader 5 6 "data.csv" none
      { reader := some id } ⟨[("data.csv", 10)], []⟩ id id 10
      rfl rfl rfl rfl).2.1⟩

/-- C10: any strategy string other than `lazy`, `pass_through` and `file`
(for example `bogus`) makes `cacher` behave exactly as `create`: the same
outcome (result, final state and ordered step trace). -/
theorem c10_unrecognized_is_create {Data : Type} (fn : Data) (path : String)
    (strat : String) (h : Hooks Data) (s : CacheState Data)
    (h1 : strat ≠ "lazy") (h2 : strat ≠ "pass_through") (h3 : strat ≠ "file") :
    cacher fn path (some strat) h s = cacher fn path (some "create") h s := by
  unfold cacher
  have hn : normalizeStrategy (some strat) (fileExists s path) = strat := by
    simp [normalizeStrategy, h1]
  have hc : normalizeStrategy (some "create") (fileExists s path) = "create" := by
    simp [normalizeStrategy]
  rw [hn, hc]
  unfold cacherDispatch
  simp [h2, h3]

/-- C10 witness: the unrecognized strategy string `bogus` gives the same
outcome as `create` at a concrete input. -/
theorem c10_witness :
    cacher (3 : Nat) "p" (some "bogus") { writer := some id } ⟨[], []⟩
      = cacher (3 : Nat) "p" (some "create") { writer := some id } ⟨[], []⟩ :=
  c10_unrecognized_is_create 3 "p" "bogus" { writer := some id } ⟨[], []⟩
    (by decide) (by decide) (by decide)

end AllenSDK
